import Mathlib

set_option maxRecDepth 10000

/-!
Verification development for the EEG streaming pipeline of this repository:
the Flask server (routes start-analysis, stop-analysis, update-settings,
export-data, the calibrate and read_eeg_data_brainflow functions) and the
browser client (app.js, in particular the update_data socket handler).
Python floats are modelled as rationals; the square root used by the
standard deviation is exact on perfect squares.
-/

namespace EEG

/-- Sample values: the Python floats are modelled as rationals. -/
abbrev Value : Type := Rat

/-- numpy mean of a list (division by zero yields 0 for the empty list). -/
def mean (l : List Value) : Value := l.sum / (l.length : Value)

/-- Population variance, as numpy std computes it before the square root. -/
def variancePop (l : List Value) : Value := mean (l.map (fun x => (x - mean l) ^ 2))

/-- Rational square root, exact on perfect squares; models the float sqrt
inside numpy std closely enough for the concrete inputs used here. -/
def ratSqrt (q : Value) : Value := (Int.sqrt q.num : Value) / (Nat.sqrt q.den : Value)

/-- numpy population standard deviation. -/
def stdPop (l : List Value) : Value := ratSqrt (variancePop l)

/-- One DataFilter call made by the loop body on a single channel. -/
inductive FilterOp where
  | detrendConst : FilterOp
  | bandpass (lo hi : Value) (ord : Nat) : FilterOp
  | bandstop (lo hi : Value) (ord : Nat) : FilterOp
  deriving DecidableEq

/-- The per-channel filter chain of read_eeg_data_brainflow, exactly as the
source calls DataFilter: detrend CONSTANT, then perform_bandpass 3.0 45.0
order 2, then perform_bandstop 48.0 52.0, then perform_bandstop 58.0 62.0.
The semantics of each external DataFilter call is the parameter f. -/
def applyFilters (f : FilterOp → List Value → List Value) (ch : List Value) : List Value :=
  f (FilterOp.bandstop 58 62 2)
    (f (FilterOp.bandstop 48 52 2)
      (f (FilterOp.bandpass 3 45 2)
        (f FilterOp.detrendConst ch)))

/-- The sequence of DataFilter operations the source applies per channel. -/
def channelFilterOps : List FilterOp :=
  [FilterOp.detrendConst, FilterOp.bandpass 3 45 2,
   FilterOp.bandstop 48 52 2, FilterOp.bandstop 58 62 2]

/-- Modelled from the spec: the operation sequence the spec describes, with a
band-pass in the CONFIGURED band (lowcut, highcut, order) instead of the
fixed literals of the source. Used only to compare against channelFilterOps. -/
def specConfiguredOps (lo hi : Value) (ord : Nat) : List FilterOp :=
  [FilterOp.detrendConst, FilterOp.bandpass lo hi ord,
   FilterOp.bandstop 48 52 2, FilterOp.bandstop 58 62 2]

/-- One window of data as returned by get_current_board_data after the
data[eeg_channels, :] selection: one row of samples per hardware EEG channel. -/
abbrev Window : Type := List (List Value)

/-- data_transposed.size: the total number of scalar samples in the window. -/
def windowSize (w : Window) : Nat := (w.map List.length).sum

/-- The module level settings written by update_settings and read by the loop. -/
structure Settings where
  enabled_channels : Nat
  bandpass_enabled : Bool
  baseline_correction_enabled : Bool
  deriving DecidableEq

/-- Baseline correction: data_transposed[idx] -= calibration_values[idx] for
idx in range(len(eeg_channels)). Pairs rows with calibration entries by
position; running out of calibration entries is the Python IndexError (none). -/
def subRows : List (List Value) → List Value → Option (List (List Value))
  | [], _ => some []
  | row :: rest, c :: cs =>
    match subRows rest cs with
    | some r => some ((row.map (fun x => x - c)) :: r)
    | none => none
  | _ :: _, [] => none

/-- REF channel normalization: when the mean of row 0 exceeds 1000, replace
that row by its standardized values (subtract mean, divide by std). -/
def normalizeRef (w2 : Window) : Window :=
  if 1000 < mean (w2.headD []) then
    w2.set 0 ((w2.headD []).map
      (fun x => (x - mean (w2.headD [])) / stdPop (w2.headD [])))
  else w2

/-- The processing applied to one window inside the loop body, in source
order: optional per-channel filter chain, optional baseline correction,
then normalization of the REF channel (row 0) when its mean exceeds 1000.
none models an exception escaping the loop body (only the filter calls sit
inside an inner try/except in the source; the baseline subtraction does not). -/
def processWindow (f : FilterOp → List Value → List Value) (s : Settings)
    (calib : List Value) (w : Window) : Option Window :=
  match (if s.baseline_correction_enabled
         then subRows (if s.bandpass_enabled then w.map (applyFilters f) else w) calib
         else some (if s.bandpass_enabled then w.map (applyFilters f) else w)) with
  | none => none
  | some w2 => some (normalizeRef w2)

/-- One tick of the adapter: get_current_board_data either returns a window
or raises (a BrainFlow or other library error). -/
inductive Poll where
  | ok (w : Window) : Poll
  | err : Poll
  deriving DecidableEq

/-- The adapter behaviour seen by one run of read_eeg_data_brainflow:
whether prepare_session and start_stream succeed, and the successive poll
results while the running flag stays true (the list ends when stop-analysis
clears the flag). -/
structure LoopInput where
  setupOk : Bool
  polls : List Poll
  deriving DecidableEq

/-- The observable outcome of one run of the acquisition loop thread. -/
structure LoopResult where
  collected : List (List Value)
  emits : List (List Value)
  exitedViaError : Bool
  finalRunning : Bool
  deriving DecidableEq

/-- The while loop of read_eeg_data_brainflow. Per iteration, in source
order: poll (an adapter error propagates to the function level handler and
ends the loop); skip the iteration when the window has size 0; process the
window (an exception again ends the loop); reset collected_data and fill it
with the processed rows; emit the element at index 0 of every row (an empty
row raises there, after collected_data was already overwritten). The running
flag is never written by the loop: error exits leave it true, and the normal
exit happens only because stop-analysis already set it false. -/
def loopGo (f : FilterOp → List Value → List Value) (s : Settings) (calib : List Value) :
    List Poll → List (List Value) → List (List Value) → LoopResult
  | [], coll, ems => ⟨coll, ems.reverse, false, false⟩
  | Poll.err :: _, coll, ems => ⟨coll, ems.reverse, true, true⟩
  | Poll.ok w :: rest, coll, ems =>
    if windowSize w = 0 then loopGo f s calib rest coll ems
    else
      match processWindow f s calib w with
      | none => ⟨coll, ems.reverse, true, true⟩
      | some p =>
        if p.any List.isEmpty then ⟨p, ems.reverse, true, true⟩
        else loopGo f s calib rest p ((p.map (fun ch => ch.headD 0)) :: ems)

/-- read_eeg_data_brainflow: prepare_session/start_stream first (failure is
caught by the function level handler, which logs and lets the thread die
without touching the running flag), then the while running loop. -/
def read_eeg_data_brainflow (f : FilterOp → List Value → List Value) (s : Settings)
    (calib : List Value) (running0 : Bool) (coll0 : List (List Value))
    (inp : LoopInput) : LoopResult :=
  if inp.setupOk then
    if running0 then loopGo f s calib inp.polls coll0 []
    else ⟨coll0, [], false, false⟩
  else ⟨coll0, [], true, running0⟩

/-- The observable outcome of the start-analysis route: the running flag
after the call, the HTTP status returned (none when the view function falls
off the end and returns no response), and how many acquisition loop threads
this call spawned. -/
structure StartResult where
  running : Bool
  status : Option Nat
  threadsStarted : Nat
  deriving DecidableEq

/-- start_analysis: sets running = True unconditionally, cleans up SPI/GPIO,
returns 409 if check_gpio_conflicts reports a conflict, otherwise spawns the
read_eeg_data_brainflow thread and returns nothing (no return statement). -/
def start_analysis (running0 : Bool) (gpioConflict : Bool) : StartResult :=
  let running1 := true
  let _ := running0
  if gpioConflict then ⟨running1, some 409, 0⟩
  else ⟨running1, none, 1⟩

/-- The observable outcome of a call to the calibrate function:
calibration_values after the call, whether an exception was caught inside
the function (cutting the run short), and whether any exception escaped to
the caller. The source wraps the whole body in try/except handlers that only
log, so no exception ever escapes. -/
structure CalibCall where
  values : List Value
  aborted : Bool
  escaped : Bool
  deriving DecidableEq

/-- calibration_data[idx].extend(channel_data): Python raises IndexError when
idx is out of range of the accumulator list. -/
def extendAt (acc : List (List Value)) (idx : Nat) (row : List Value) :
    Option (List (List Value)) :=
  if idx < acc.length then some (acc.set idx (acc.getD idx [] ++ row)) else none

/-- for idx, channel_data in enumerate(data_transposed): accumulate each row
of the window at its index; the first out of range index raises (none). -/
def extendRows : List (List Value) → List (List Value) → Nat → Option (List (List Value))
  | acc, [], _ => some acc
  | acc, row :: rest, idx =>
    match extendAt acc idx row with
    | some acc2 => extendRows acc2 rest (idx + 1)
    | none => none

/-- The 5 second sampling loop of calibrate: windows of size 0 are skipped
(continue), every other window is accumulated row by row; an IndexError
aborts the whole run (none). -/
def accumAll : List (List Value) → List Window → Option (List (List Value))
  | acc, [] => some acc
  | acc, w :: ws =>
    if windowSize w = 0 then accumAll acc ws
    else
      match extendRows acc w 0 with
      | some acc2 => accumAll acc2 ws
      | none => none

/-- calibrate: prepares its own session (setupOk false models the resource
being held, e.g. by a running stream - the raised error is caught), builds
enabled_channels empty accumulators, accumulates the polled windows, and on
success overwrites calibration_values with the per accumulator means. Every
exception is caught by the try/except of the source, so escaped is false on
all paths and on failure the previous values are kept. -/
def calibrate (enabled : Nat) (old : List Value) (setupOk : Bool)
    (windows : List Window) : CalibCall :=
  if setupOk then
    match accumAll (List.replicate enabled []) windows with
    | none => ⟨old, true, false⟩
    | some acc => ⟨acc.map mean, false, false⟩
  else ⟨old, true, false⟩

/-- A CSV document as create_csv builds it: one header row of channel names,
then data rows (one column per channel). -/
structure Csv where
  header : List String
  rows : List (List Value)
  deriving DecidableEq

/-- The header row written by create_csv: Channel1 .. ChannelK. -/
def channelHeader (k : Nat) : List String :=
  (List.range k).map (fun i => "Channel" ++ toString (i + 1))

/-- Length of the shortest channel list; zip(*data) stops there. -/
def minLen : List (List Value) → Nat
  | [] => 0
  | l :: ls => (ls.map List.length).foldl min l.length

/-- zip(*data): rows of per-channel values, truncated to the shortest list. -/
def zipRows (data : List (List Value)) : List (List Value) :=
  (List.range (minLen data)).map (fun i => data.map (fun ch => ch.getD i 0))

/-- create_csv: header row naming the channels, then one row per sample. -/
def create_csv (data : List (List Value)) : Csv :=
  ⟨channelHeader data.length, zipRows data⟩

/-- Python slice ch[:n], including the negative index convention. -/
def pyTake (n : Int) (l : List Value) : List Value :=
  if 0 ≤ n then l.take n.toNat else l.take ((l.length : Int) + n).toNat

/-- export_data: parses num_rows (5000 when the query parameter is absent),
clamps it to len(collected_data[0]), truncates every channel and serializes
with create_csv. An empty collected_data makes collected_data[0] raise,
which the route turns into a 500 response (none). -/
def export_data (numRows : Option Int) (collected : List (List Value)) : Option Csv :=
  match collected with
  | [] => none
  | c0 :: _ =>
    let n0 : Int := numRows.getD 5000
    let n : Int := if (c0.length : Int) < n0 then (c0.length : Int) else n0
    some (create_csv (collected.map (fun ch => pyTake n ch)))

/-- The Chart.js state the client keeps: the shared labels list and one data
list per series, in dataset order. -/
structure ChartState where
  labels : List Nat
  datasets : List (List (Nat × Value))
  deriving DecidableEq

/-- datasets.forEach((dataset, index) => if raw.length > index push a point):
appends the indexed raw value to each series that has one. -/
def pushPoints (now : Nat) (raw : List Value) :
    Nat → List (List (Nat × Value)) → List (List (Nat × Value))
  | _, [] => []
  | i, d :: ds =>
    (if i < raw.length then d ++ [(now, raw.getD i 0)] else d) ::
      pushPoints now raw (i + 1) ds

/-- The update_data socket handler of app.js: when the shared labels list is
longer than 100, shift (drop the oldest entry of) the labels and of every
series; then push the new label and the new points. -/
def update_data (now : Nat) (raw : List Value) (st : ChartState) : ChartState :=
  let labels1 := if 100 < st.labels.length then st.labels.tail else st.labels
  let ds1 := if 100 < st.labels.length then st.datasets.map List.tail else st.datasets
  ⟨labels1 ++ [now], pushPoints now raw 0 ds1⟩

/-- n successive update_data events carrying the same raw vector. -/
def pushN (raw : List Value) : Nat → ChartState → ChartState
  | 0, st => st
  | n + 1, st => pushN raw n (update_data 0 raw st)

/-- The invariant the chart state actually maintains: the labels list never
exceeds 101 entries and no series is longer than the labels list. -/
def chartInv (st : ChartState) : Prop :=
  st.labels.length ≤ 101 ∧ ∀ d ∈ st.datasets, d.length ≤ st.labels.length

/-- C1 counterexample: a start request issued while the stream is already
Running (running flag true, no GPIO conflict) spawns another acquisition
loop thread, so start is not a no-op as the claim states. -/
theorem C1_counterexample : (start_analysis true false).threadsStarted ≠ 0 := by
  decide

/-- C1 (amended): starting while already Running leaves the running flag
true (the flag is re-assigned True, so the state is unchanged), but whenever
no GPIO conflict is detected it spawns an additional acquisition loop
thread - the operation is not idempotent. -/
theorem C1_start_running_spawns_again (c : Bool) :
    (start_analysis true c).running = true ∧
    (c = false → (start_analysis true c).threadsStarted = 1) := by
  cases c <;> simp [start_analysis]

/-- C1 witness: the amended statement at the concrete conflict-free input. -/
theorem C1_start_running_spawns_again_witness :
    (start_analysis true false).running = true ∧
    (start_analysis true false).threadsStarted = 1 :=
  ⟨(C1_start_running_spawns_again false).1,
   (C1_start_running_spawns_again false).2 rfl⟩

/-- C2 counterexample: on a resource conflict, start returns 409 but has
already flipped the running flag from Idle to Running (state mutated), and
on the success path the view function returns no response at all, so there
is no 200 status message. -/
theorem C2_counterexample :
    (start_analysis false true).status = some 409 ∧
    (start_analysis false true).running ≠ false ∧
    (start_analysis false false).status ≠ some 200 := by
  decide

/-- C2 (amended): start sets running to true unconditionally, before the
conflict check; on GPIO conflict it returns a structured 409 response
without spawning a thread (but with the state already mutated to Running),
and otherwise it spawns the loop thread and returns no response body
(the route has no return statement on that path). -/
theorem C2_start_conflict_behaviour (r0 : Bool) :
    start_analysis r0 true = ⟨true, some 409, 0⟩ ∧
    start_analysis r0 false = ⟨true, none, 1⟩ :=
  ⟨rfl, rfl⟩

/-- C2 witness: the amended statement starting from the Idle state. -/
theorem C2_start_conflict_behaviour_witness :
    start_analysis false true = ⟨true, some 409, 0⟩ ∧
    start_analysis false false = ⟨true, none, 1⟩ :=
  C2_start_conflict_behaviour false

/-- C3 counterexample: with the acquisition resource held by the running
stream (session setup fails), the calibrate call does not fail: the
BrainFlowError is caught and swallowed inside calibrate, so nothing escapes
to the caller; the previous CalibrationVector is kept. -/
theorem C3_counterexample :
    (calibrate 8 [(1 : Value), 2] false []).escaped ≠ true ∧
    (calibrate 8 [(1 : Value), 2] false []).values = [1, 2] := by
  decide

/-- C3 (amended): calibrate performs no StreamState check at all; when the
resource is held (as it is while Running) the session setup error is caught
inside calibrate - the call completes without propagating any failure, the
run is aborted, and the CalibrationVector is left unchanged. -/
theorem C3_calibrate_swallows_failure (enabled : Nat) (old : List Value)
    (ws : List Window) : calibrate enabled old false ws = ⟨old, true, false⟩ := rfl

/-- C3 witness: the amended statement at a concrete held-resource call. -/
theorem C3_calibrate_swallows_failure_witness :
    calibrate 8 [(1 : Value), 2] false [[[3]]] = ⟨[(1 : Value), 2], true, false⟩ :=
  C3_calibrate_swallows_failure 8 [(1 : Value), 2] [[[3]]]

/-- extendRows fails with an IndexError whenever the rows to accumulate
outnumber the remaining accumulator slots. -/
theorem extendRows_overflow : ∀ (rows : List (List Value))
    (acc : List (List Value)) (idx : Nat),
    idx ≤ acc.length → acc.length < idx + rows.length →
    extendRows acc rows idx = none := by
  intro rows
  induction rows with
  | nil => intro acc idx h1 h2; simp at h2; omega
  | cons row rest ih =>
    intro acc idx h1 h2
    by_cases hidx : idx < acc.length
    · have hset : extendAt acc idx row
          = some (acc.set idx (acc.getD idx [] ++ row)) := by
        simp [extendAt, hidx]
      have hlen : (acc.set idx (acc.getD idx [] ++ row)).length = acc.length :=
        List.length_set acc idx _
      simp only [extendRows, hset]
      exact ih _ (idx + 1) (by omega) (by simp [hlen]; simp at h2; omega)
    · have hset : extendAt acc idx row = none := by simp [extendAt, hidx]
      simp [extendRows, hset]

/-- accumAll fails as soon as one window with data arrives, whenever every
window has hw rows and the accumulator has fewer than hw slots. -/
theorem accumAll_fail (hw : Nat) : ∀ (ws : List Window) (acc : List (List Value)),
    acc.length < hw → (∀ w ∈ ws, w.length = hw) →
    (∃ w ∈ ws, windowSize w ≠ 0) → accumAll acc ws = none := by
  intro ws
  induction ws with
  | nil => intro acc _ _ hex; simp at hex
  | cons w rest ih =>
    intro acc hacc hlen hex
    by_cases hz : windowSize w = 0
    · have hex2 : ∃ v ∈ rest, windowSize v ≠ 0 := by
        rcases hex with ⟨v, hv, hvs⟩
        rcases List.mem_cons.mp hv with h | h
        · exact absurd (h ▸ hz) hvs
        · exact ⟨v, h, hvs⟩
      simp only [accumAll, if_pos hz]
      exact ih acc hacc (fun v hv => hlen v (List.mem_cons_of_mem w hv)) hex2
    · have hrow : extendRows acc w 0 = none := by
        apply extendRows_overflow w acc 0 (Nat.zero_le _)
        have := hlen w (List.mem_cons_self w rest)
        omega
      simp [accumAll, hz, hrow]

/-- C10: if calibrate runs with enabled_channels smaller than the hardware
EEG channel count (the row count of every polled window) and at least one
window carries data, then accumulating that window indexes the per-channel
accumulator out of range; the IndexError is caught, the run is aborted, and
the previous CalibrationVector is returned unchanged - so an overwrite can
only happen when enabled_channels is at least the hardware channel count. -/
theorem C10_calibrate_out_of_range (enabled hw : Nat) (old : List Value)
    (ws : List Window) (hlen : ∀ w ∈ ws, w.length = hw)
    (hdat : ∃ w ∈ ws, windowSize w ≠ 0) (hlt : enabled < hw) :
    calibrate enabled old true ws = ⟨old, true, false⟩ := by
  have hfail : accumAll (List.replicate enabled []) ws = none :=
    accumAll_fail hw ws (List.replicate enabled [])
      (by simpa using hlt) hlen hdat
  simp [calibrate, hfail]

/-- C10 witness: calibrating with 4 enabled channels against one 8 row
window carrying data leaves the previous vector untouched. -/
theorem C10_calibrate_out_of_range_witness :
    calibrate 4 [(9 : Value)] true [[[1], [2], [3], [4], [5], [6], [7], [8]]]
      = ⟨[(9 : Value)], true, false⟩ :=
  C10_calibrate_out_of_range 4 8 [(9 : Value)]
    [[[1], [2], [3], [4], [5], [6], [7], [8]]]
    (by decide) (by decide) (by decide)

/-- normalizeRef replaces a row in place and never changes the row count. -/
theorem normalizeRef_length (w2 : Window) : (normalizeRef w2).length = w2.length := by
  unfold normalizeRef
  split <;> simp

/-- subRows preserves the number of rows when it succeeds. -/
theorem subRows_length : ∀ (rows : List (List Value)) (calib : List Value)
    (r : List (List Value)), subRows rows calib = some r → r.length = rows.length := by
  intro rows
  induction rows with
  | nil =>
    intro calib r h
    cases calib <;> simp [subRows] at h <;> simp [← h]
  | cons row rest ih =>
    intro calib r h
    cases calib with
    | nil => simp [subRows] at h
    | cons c cs =>
      simp only [subRows] at h
      rcases hr : subRows rest cs with _ | r2
      · rw [hr] at h; simp at h
      · rw [hr] at h
        simp at h
        rw [← h]
        simp [ih cs r2 hr]

/-- processWindow preserves the number of channel rows. -/
theorem processWindow_length (f : FilterOp → List Value → List Value) (s : Settings)
    (calib : List Value) (w p : Window) (h : processWindow f s calib w = some p) :
    p.length = w.length := by
  unfold processWindow at h
  rcases hsub : (if s.baseline_correction_enabled
      then subRows (if s.bandpass_enabled then w.map (applyFilters f) else w) calib
      else some (if s.bandpass_enabled then w.map (applyFilters f) else w)) with _ | w2
  · rw [hsub] at h; simp at h
  · rw [hsub] at h
    simp at h
    have hw2 : w2.length = w.length := by
      rcases hbc : s.baseline_correction_enabled
      · rw [hbc] at hsub
        simp at hsub
        rw [← hsub]
        split <;> simp
      · rw [hbc] at hsub
        simp at hsub
        have := subRows_length _ calib w2 hsub
        rw [this]
        split <;> simp
    rw [← h, normalizeRef_length, hw2]

/-- If the err poll is anywhere in the script, the loop ends by the outer
exception handler with the running flag still true. -/
theorem loopGo_err (f : FilterOp → List Value → List Value) (s : Settings)
    (calib : List Value) : ∀ (polls : List Poll) (coll ems : List (List Value)),
    Poll.err ∈ polls →
    (loopGo f s calib polls coll ems).exitedViaError = true ∧
    (loopGo f s calib polls coll ems).finalRunning = true := by
  intro polls
  induction polls with
  | nil => intro coll ems h; simp at h
  | cons q rest ih =>
    intro coll ems h
    cases q with
    | err => simp [loopGo]
    | ok w =>
      have hmem : Poll.err ∈ rest := by
        rcases List.mem_cons.mp h with h1 | h1
        · exact absurd h1 (by simp)
        · exact h1
      by_cases hz : windowSize w = 0
      · simpa [loopGo, hz] using ih coll ems hmem
      · rcases hpw : processWindow f s calib w with _ | p2
        · simp [loopGo, hz, hpw]
        · by_cases he : p2.any List.isEmpty
          · simp [loopGo, hz, hpw, he]
          · simpa [loopGo, hz, hpw, he] using ih p2 _ hmem

/-- C6 counterexample: after a successful session setup, an adapter error in
the very first loop iteration terminates the loop - the following good
window is never processed or published, so the error is not skipped; and a
session setup failure leaves the running flag true, not Idle. -/
theorem C6_counterexample :
    (read_eeg_data_brainflow (fun _ ch => ch) ⟨8, false, false⟩ [] true []
        ⟨true, [Poll.err, Poll.ok [[7]]]⟩).emits = [] ∧
    (read_eeg_data_brainflow (fun _ ch => ch) ⟨8, false, false⟩ [] true []
        ⟨true, [Poll.err, Poll.ok [[7]]]⟩).exitedViaError = true ∧
    (read_eeg_data_brainflow (fun _ ch => ch) ⟨8, false, false⟩ [] true []
        ⟨false, []⟩).finalRunning ≠ false := by
  decide

/-- C6 (amended): adapter exceptions inside a loop iteration are not caught
per iteration: any err poll makes the loop exit through the function level
handler, exactly like a session setup failure; in both cases the running
flag is left unchanged (after a start, it stays Running rather than Idle). -/
theorem C6_loop_error_exits (f : FilterOp → List Value → List Value) (s : Settings)
    (calib : List Value) (coll0 : List (List Value)) (r0 : Bool) (inp : LoopInput) :
    (inp.setupOk = false →
      read_eeg_data_brainflow f s calib r0 coll0 inp = ⟨coll0, [], true, r0⟩) ∧
    (inp.setupOk = true → r0 = true → Poll.err ∈ inp.polls →
      (read_eeg_data_brainflow f s calib r0 coll0 inp).exitedViaError = true ∧
      (read_eeg_data_brainflow f s calib r0 coll0 inp).finalRunning = true) := by
  constructor
  · intro h
    simp [read_eeg_data_brainflow, h]
  · intro h1 h2 h3
    simpa [read_eeg_data_brainflow, h1, h2] using
      loopGo_err f s calib inp.polls coll0 [] h3

/-- C6 witness: the amended statement at concrete inputs: a failed setup
with the flag already true, and a one-err script. -/
theorem C6_loop_error_exits_witness :
    read_eeg_data_brainflow (fun _ ch => ch) ⟨8, false, false⟩ [] true [] ⟨false, []⟩
      = ⟨[], [], true, true⟩ ∧
    (read_eeg_data_brainflow (fun _ ch => ch) ⟨8, false, false⟩ [] true []
        ⟨true, [Poll.err]⟩).exitedViaError = true :=
  ⟨(C6_loop_error_exits (fun _ ch => ch) ⟨8, false, false⟩ [] [] true ⟨false, []⟩).1 rfl,
   ((C6_loop_error_exits (fun _ ch => ch) ⟨8, false, false⟩ [] [] true
      ⟨true, [Poll.err]⟩).2 rfl rfl (by simp)).1⟩

/-- C4 counterexample: two good windows, baseline correction enabled with
vector [5, 5]: after the run collected_data holds only the second window,
and holds its baseline corrected values, not the raw readings - so the
buffer is neither append-only across iterations nor an archive of raw
values (the claim predicts [[10, 30], [20, 40]]). -/
theorem C4_counterexample :
    (read_eeg_data_brainflow (fun _ ch => ch) ⟨8, false, true⟩ [5, 5] true []
        ⟨true, [Poll.ok [[10], [20]], Poll.ok [[30], [40]]]⟩).collected
      ≠ [[10, 30], [20, 40]] ∧
    (read_eeg_data_brainflow (fun _ ch => ch) ⟨8, false, true⟩ [5, 5] true []
        ⟨true, [Poll.ok [[10], [20]], Poll.ok [[30], [40]]]⟩).collected
      = [[25], [35]] := by
  have hp1 : processWindow (fun _ ch => ch) ⟨8, false, true⟩ [5, 5] [[10], [20]]
      = some [[5], [15]] := by
    norm_num [processWindow, subRows, normalizeRef, mean]
  have hp2 : processWindow (fun _ ch => ch) ⟨8, false, true⟩ [5, 5] [[30], [40]]
      = some [[25], [35]] := by
    norm_num [processWindow, subRows, normalizeRef, mean]
  have h : (read_eeg_data_brainflow (fun _ ch => ch) ⟨8, false, true⟩ [5, 5] true []
      ⟨true, [Poll.ok [[10], [20]], Poll.ok [[30], [40]]]⟩).collected
      = [[(25 : Value)], [35]] := by
    simp [read_eeg_data_brainflow, loopGo, hp1, hp2, windowSize]
  exact ⟨by rw [h]; decide, h⟩

/-- C4 (amended): collected_data is reset on every loop iteration, so after
the run it holds exactly the processed rows of the most recent window
(post filter, post baseline correction, post REF normalization), while the
published events carry the index 0 element of each processed row. -/
theorem C4_buffer_last_window (f : FilterOp → List Value → List Value) (s : Settings)
    (calib : List Value) (coll0 : List (List Value)) (w1 w2 p1 p2 : Window)
    (h1 : ¬ windowSize w1 = 0) (h2 : ¬ windowSize w2 = 0)
    (hp1 : processWindow f s calib w1 = some p1)
    (hp2 : processWindow f s calib w2 = some p2)
    (he1 : p1.any List.isEmpty = false) (he2 : p2.any List.isEmpty = false) :
    (read_eeg_data_brainflow f s calib true coll0
        ⟨true, [Poll.ok w1, Poll.ok w2]⟩).collected = p2 ∧
    (read_eeg_data_brainflow f s calib true coll0
        ⟨true, [Poll.ok w1, Poll.ok w2]⟩).emits
      = [p1.map (fun ch => ch.headD 0), p2.map (fun ch => ch.headD 0)] := by
  constructor <;>
    simp [read_eeg_data_brainflow, loopGo, h1, h2, hp1, hp2, he1, he2]

/-- C4 witness: the amended statement at the concrete inputs of the
counterexample run. -/
theorem C4_buffer_last_window_witness :
    (read_eeg_data_brainflow (fun _ ch => ch) ⟨8, false, true⟩ [5, 5] true []
        ⟨true, [Poll.ok [[10], [20]], Poll.ok [[30], [40]]]⟩).collected
      = [[(25 : Value)], [35]] ∧
    (read_eeg_data_brainflow (fun _ ch => ch) ⟨8, false, true⟩ [5, 5] true []
        ⟨true, [Poll.ok [[10], [20]], Poll.ok [[30], [40]]]⟩).emits
      = [([[(5 : Value)], [15]] : Window).map (fun ch => ch.headD 0),
         ([[(25 : Value)], [35]] : Window).map (fun ch => ch.headD 0)] :=
  C4_buffer_last_window (fun _ ch => ch) ⟨8, false, true⟩ [5, 5] []
    [[10], [20]] [[30], [40]] [[5], [15]] [[25], [35]]
    (by decide) (by decide)
    (by norm_num [processWindow, subRows, normalizeRef, mean])
    (by norm_num [processWindow, subRows, normalizeRef, mean])
    (by decide) (by decide)

/-- C7 counterexample: with only 1 enabled channel configured but 2 hardware
EEG rows in the window, the published event carries 2 floats - one per
hardware row, not one per enabled channel. -/
theorem C7_counterexample :
    (read_eeg_data_brainflow (fun _ ch => ch) ⟨1, false, false⟩ [] true []
        ⟨true, [Poll.ok [[7], [9]]]⟩).emits = [[7, 9]] ∧
    ((read_eeg_data_brainflow (fun _ ch => ch) ⟨1, false, false⟩ [] true []
        ⟨true, [Poll.ok [[7], [9]]]⟩).emits.headD []).length
      ≠ (⟨1, false, false⟩ : Settings).enabled_channels := by
  have hp : processWindow (fun _ ch => ch) ⟨1, false, false⟩ [] [[7], [9]]
      = some [[7], [9]] := by
    norm_num [processWindow, normalizeRef, mean]
  have h : (read_eeg_data_brainflow (fun _ ch => ch) ⟨1, false, false⟩ [] true []
      ⟨true, [Poll.ok [[7], [9]]]⟩).emits = [[(7 : Value), 9]] := by
    simp [read_eeg_data_brainflow, loopGo, hp, windowSize]
  exact ⟨h, by rw [h]; decide⟩

/-- C7 (amended): every published event carries exactly one float per
hardware EEG channel row of the adapter window (independent of the
enabled-channels setting), each float being the element at index 0 of that
channel of the processed window. -/
theorem C7_event_per_hw_channel (f : FilterOp → List Value → List Value) (s : Settings)
    (calib : List Value) (coll0 : List (List Value)) (w p : Window)
    (hsz : ¬ windowSize w = 0) (hp : processWindow f s calib w = some p)
    (hne : p.any List.isEmpty = false) :
    (read_eeg_data_brainflow f s calib true coll0 ⟨true, [Poll.ok w]⟩).emits
      = [p.map (fun ch => ch.headD 0)] ∧
    (p.map (fun ch => ch.headD 0)).length = w.length := by
  constructor
  · simp [read_eeg_data_brainflow, loopGo, hsz, hp, hne]
  · rw [List.length_map]
    exact processWindow_length f s calib w p hp

/-- C7 witness: the amended statement at the concrete two-row window. -/
theorem C7_event_per_hw_channel_witness :
    (read_eeg_data_brainflow (fun _ ch => ch) ⟨1, false, false⟩ [] true []
        ⟨true, [Poll.ok [[7], [9]]]⟩).emits
      = [([[(7 : Value)], [9]] : Window).map (fun ch => ch.headD 0)] ∧
    (([[(7 : Value)], [9]] : Window).map (fun ch => ch.headD 0)).length
      = ([[(7 : Value)], [9]] : Window).length :=
  C7_event_per_hw_channel (fun _ ch => ch) ⟨1, false, false⟩ [] []
    [[7], [9]] [[7], [9]] (by decide)
    (by norm_num [processWindow, normalizeRef, mean]) (by decide)

/-- getD of a mapped list at an in-range index. -/
theorem getD_map_lt (g : List Value → List Value) :
    ∀ (w : Window) (i : Nat), i < w.length → (w.map g).getD i [] = g (w.getD i []) := by
  intro w
  induction w with
  | nil => intro i h; simp at h
  | cons a t ih =>
    intro i h
    cases i with
    | zero => simp [List.getD]
    | succ j =>
      simp only [List.map_cons, List.getD_cons_succ]
      exact ih j (by simpa using h)

/-- C8 counterexample: with the filter band configured to 10-30 Hz, the
operations the loop actually applies are not the spec-described chain with
the configured band: the band-pass corner frequencies are the fixed
literals 3.0 and 45.0, ignoring the configured lowcut/highcut. -/
theorem C8_counterexample : channelFilterOps ≠ specConfiguredOps 10 30 2 := by
  decide

/-- C8 (amended): when bandpassEnabled is set (and baseline correction is
off and the REF mean does not trip normalization), each channel of the
window is processed by exactly the chain detrend, band-pass 3-45 Hz,
notch 48-52 Hz, notch 58-62 Hz, in that order. -/
theorem C8_filter_order (f : FilterOp → List Value → List Value) (s : Settings)
    (calib : List Value) (w : Window) (i : Nat)
    (hb : s.bandpass_enabled = true) (hbc : s.baseline_correction_enabled = false)
    (hi : i < w.length)
    (hm : ¬ 1000 < mean ((w.map (applyFilters f)).headD [])) :
    processWindow f s calib w = some (w.map (applyFilters f)) ∧
    (w.map (applyFilters f)).getD i []
      = channelFilterOps.foldl (fun ch op => f op ch) (w.getD i []) := by
  constructor
  · simp only [processWindow, hb, hbc]
    simp only [Bool.false_eq_true, if_false, if_true]
    unfold normalizeRef
    rw [if_neg hm]
  · rw [getD_map_lt (applyFilters f) w i hi]
    simp [channelFilterOps, applyFilters]

/-- C8 witness: the amended statement at a one-channel window with the
identity filter semantics. -/
theorem C8_filter_order_witness :
    processWindow (fun _ ch => ch) ⟨8, true, false⟩ [] [[(0 : Value)]]
      = some (([[(0 : Value)]] : Window).map (applyFilters (fun _ ch => ch))) ∧
    (([[(0 : Value)]] : Window).map (applyFilters (fun _ ch => ch))).getD 0 []
      = channelFilterOps.foldl (fun ch op => (fun _ c => c : FilterOp → List Value → List Value) op ch)
          (([[(0 : Value)]] : Window).getD 0 []) :=
  C8_filter_order (fun _ ch => ch) ⟨8, true, false⟩ [] [[(0 : Value)]] 0
    rfl rfl (by decide) (by norm_num [mean, applyFilters])

/-- Each series grows by at most one point per event. -/
theorem pushPoints_bound (now : Nat) (raw : List Value) :
    ∀ (ds : List (List (Nat × Value))) (i : Nat) (d2 : List (Nat × Value)),
    d2 ∈ pushPoints now raw i ds → ∃ d ∈ ds, d2.length ≤ d.length + 1 := by
  intro ds
  induction ds with
  | nil => intro i d2 h; simp [pushPoints] at h
  | cons d rest ih =>
    intro i d2 h
    simp only [pushPoints] at h
    rcases List.mem_cons.mp h with h1 | h1
    · refine ⟨d, List.mem_cons_self d rest, ?_⟩
      subst h1
      split <;> simp
    · rcases ih (i + 1) d2 h1 with ⟨e, he, hle⟩
      exact ⟨e, List.mem_cons_of_mem d he, hle⟩

/-- C9 counterexample: starting from the empty chart with one series that
receives a value on every event, 101 published samples leave the series
with 101 buffered points - more than the 100 point bound the claim states. -/
theorem C9_counterexample :
    ¬ ((pushN [0] 101 ⟨[], [[]]⟩).datasets.headD []).length ≤ 100 := by
  decide

/-- C9 (amended): the sliding window bound is 101, not 100: the handler
shifts only when the shared labels list is already longer than 100 and then
pushes, so the labels list and every series stay at 101 points or fewer,
with the oldest point evicted first; eviction is driven by the shared
labels length, not per series. -/
theorem C9_series_bound (now : Nat) (raw : List Value) (st : ChartState)
    (h : chartInv st) :
    chartInv (update_data now raw st) ∧
    ∀ d ∈ (update_data now raw st).datasets, d.length ≤ 101 := by
  obtain ⟨hlab, hds⟩ := h
  by_cases hgt : 100 < st.labels.length
  · have hlab101 : st.labels.length = 101 := by omega
    have htail : st.labels.tail.length = 100 := by
      rw [List.length_tail, hlab101]
    have hlabNew : (update_data now raw st).labels.length = 101 := by
      simp [update_data, hgt, htail]
    have hdsNew : ∀ d2 ∈ (update_data now raw st).datasets, d2.length ≤ 101 := by
      intro d2 hd2
      simp only [update_data, if_pos hgt] at hd2
      rcases pushPoints_bound now raw (st.datasets.map List.tail) 0 d2 hd2 with ⟨e, he, hle⟩
      rcases List.mem_map.mp he with ⟨d0, hd0, rfl⟩
      have hb0 : d0.length ≤ 101 := le_trans (hds d0 hd0) (by omega)
      have ht0 : d0.tail.length = d0.length - 1 := List.length_tail d0
      omega
    exact ⟨⟨by omega, fun d hd => by rw [hlabNew]; exact hdsNew d hd⟩, hdsNew⟩
  · have hlabNew : (update_data now raw st).labels.length = st.labels.length + 1 := by
      simp [update_data, hgt]
    have hdsNew : ∀ d2 ∈ (update_data now raw st).datasets,
        d2.length ≤ st.labels.length + 1 := by
      intro d2 hd2
      simp only [update_data, if_neg hgt] at hd2
      rcases pushPoints_bound now raw st.datasets 0 d2 hd2 with ⟨e, he, hle⟩
      have := hds e he
      omega
    refine ⟨⟨by omega, fun d hd => by rw [hlabNew]; exact hdsNew d hd⟩,
      fun d hd => le_trans (hdsNew d hd) (by omega)⟩

/-- C9 witness: the amended statement at the initial one-series chart. -/
theorem C9_series_bound_witness :
    chartInv (update_data 0 [0] ⟨[], [[]]⟩) ∧
    ∀ d ∈ (update_data 0 [0] ⟨[], [[]]⟩).datasets, d.length ≤ 101 :=
  C9_series_bound 0 [0] ⟨[], [[]]⟩ (by constructor <;> decide)

/-- Folding min over a list of copies of m starting from m yields m. -/
theorem foldlMinConst (m : Nat) : ∀ (xs : List Nat) (a : Nat), a = m →
    (∀ x ∈ xs, x = m) → xs.foldl min a = m := by
  intro xs
  induction xs with
  | nil => intro a ha _; simpa using ha
  | cons x t ih =>
    intro a ha h
    have hx : x = m := h x (List.mem_cons_self x t)
    simp only [List.foldl_cons]
    exact ih (min a x) (by rw [ha, hx]; exact Nat.min_self m)
      (fun y hy => h y (List.mem_cons_of_mem x hy))

/-- When every channel list has length m, the zip length is m. -/
theorem minLen_const (m : Nat) (data : List (List Value)) (hne : data ≠ [])
    (h : ∀ ch ∈ data, ch.length = m) : minLen data = m := by
  rcases data with _ | ⟨l, ls⟩
  · exact absurd rfl hne
  · simp only [minLen]
    apply foldlMinConst
    · exact h l (List.mem_cons_self l ls)
    · intro x hx
      rcases List.mem_map.mp hx with ⟨ch, hch, rfl⟩
      exact h ch (List.mem_cons_of_mem l hch)

/-- zipRows produces exactly minLen rows. -/
theorem zipRows_length (data : List (List Value)) :
    (zipRows data).length = minLen data := by
  simp [zipRows]

/-- C5: exportRows returns min(n, L) data rows for every n and every
uniform buffer length L, plus the header row naming the channels, clamping
silently instead of erroring, and an absent row-count parameter behaves
exactly like the default 5000. -/
theorem C5_export_rows (n L : Nat) (collected : List (List Value))
    (hne : collected ≠ []) (hL : ∀ ch ∈ collected, ch.length = L) :
    (∃ csv, export_data (some (n : Int)) collected = some csv ∧
      csv.rows.length = min n L ∧
      csv.header = channelHeader collected.length) ∧
    export_data none collected = export_data (some 5000) collected := by
  constructor
  · rcases collected with _ | ⟨c0, rest⟩
    · exact absurd rfl hne
    · have hc0 : c0.length = L := hL c0 (List.mem_cons_self c0 rest)
      have hni : (if (c0.length : Int) < ((n : Nat) : Int) then (c0.length : Int)
          else ((n : Nat) : Int)) = ((min n L : Nat) : Int) := by
        rcases Nat.lt_or_ge L n with hcase | hcase
        · rw [hc0, if_pos (by exact_mod_cast hcase)]
          exact_mod_cast (by omega : L = min n L)
        · rw [hc0, if_neg (by exact_mod_cast Nat.not_lt.mpr hcase)]
          exact_mod_cast (by omega : n = min n L)
      have hpt : (fun ch => pyTake (if (c0.length : Int) < ((n : Nat) : Int)
            then (c0.length : Int) else ((n : Nat) : Int)) ch)
          = fun ch : List Value => ch.take (min n L) := by
        funext ch
        rw [hni]
        unfold pyTake
        rw [if_pos (Int.natCast_nonneg _)]
        simp only [Int.toNat_natCast]
      refine ⟨create_csv ((c0 :: rest).map (fun ch => ch.take (min n L))), ?_, ?_, ?_⟩
      · simp only [export_data, Option.getD]
        rw [hpt]
      · have hlens : ∀ ch ∈ (c0 :: rest).map (fun ch : List Value => ch.take (min n L)),
            ch.length = min n L := by
          intro ch hch
          rcases List.mem_map.mp hch with ⟨ch0, hch0, rfl⟩
          have := hL ch0 hch0
          simp [this]
        show (zipRows ((c0 :: rest).map (fun ch : List Value => ch.take (min n L)))).length
          = min n L
        rw [zipRows_length]
        exact minLen_const (min n L) _ (by simp) hlens
      · show channelHeader ((c0 :: rest).map (fun ch : List Value => ch.take (min n L))).length
          = channelHeader (c0 :: rest).length
        rw [List.length_map]
  · rfl

/-- C5 witness: requesting 10 rows from a 3 row, 2 channel buffer yields
exactly 3 data rows and the header, and the default matches 5000. -/
theorem C5_export_rows_witness :
    (∃ csv, export_data (some ((10 : Nat) : Int)) [[(1 : Value), 2, 3], [4, 5, 6]] = some csv ∧
      csv.rows.length = min 10 3 ∧
      csv.header = channelHeader ([[(1 : Value), 2, 3], [4, 5, 6]] : List (List Value)).length) ∧
    export_data none [[(1 : Value), 2, 3], [4, 5, 6]]
      = export_data (some 5000) [[(1 : Value), 2, 3], [4, 5, 6]] :=
  C5_export_rows 10 3 [[(1 : Value), 2, 3], [4, 5, 6]]
    (by decide) (by decide)

end EEG
